import Mathlib

/-!
Verification development for the OpenClaw Mission Control gateway agent
lifecycle orchestrator (`GatewayAdminLifecycleService` in
`app/services/openclaw/admin_service.py` and
`BoardOnboardingMessagingService` in
`app/services/openclaw/onboarding_service.py`).

The Python code is shallowly embedded: database rows become Lean structures,
the session becomes an explicit store threaded through the functions, remote
gateway calls become oracles (the outcome of each call is an input), and
Python exceptions become an explicit `ExcKind` value routed through the same
`try/except` structure as the source.
-/

namespace OpenClaw

/-- The exception classes distinguished by the source's `except` clauses.
`gatewayError` is the distinguished `OpenClawGatewayError`; `timeoutError`
is Python's `TimeoutError` (a subclass of `OSError`); `otherError` stands
for any exception outside the named classes. -/
inductive ExcKind where
  | gatewayError
  | timeoutError
  | osError
  | runtimeError
  | valueError
  | otherError
deriving Repr, DecidableEq

/-- Embeds `app.models.gateways.Gateway`: remote endpoint owned by an organization.
`url`/`token` are optional (`str | None`). -/
structure Gateway where
  id : Nat
  organization_id : Nat
  name : String
  url : Option String
  token : Option String
deriving Repr, DecidableEq

/-- Python truthiness of an optional string: `None` and `""` are falsy. -/
def truthyOptStr : Option String → Bool
  | none => false
  | some s => s ≠ ""

/-- Embeds `app.models.agents.Agent`: the local agent record, with the fields the
lifecycle service reads or writes. -/
structure Agent where
  id : Nat
  name : String
  status : String
  board_id : Option Nat
  gateway_id : Nat
  is_board_lead : Bool
  openclaw_session_id : String
  heartbeat_config : Option (List (String × Nat))
  identity_profile : Option (List (String × String))
  agent_token_hash : Option String
  provision_requested_at : Option Nat
  provision_action : Option String
  updated_at : Nat
deriving Repr, DecidableEq

/-- Modelled from the spec: `DEFAULT_HEARTBEAT_CONFIG` from
`app.services.openclaw.constants` is a constant structured template
(its exact contents are not under `src/`); `.copy()` is value semantics. -/
def DEFAULT_HEARTBEAT_CONFIG : List (String × Nat) := [("interval_seconds", 300)]

namespace GatewayAgentIdentity

/-- Modelled from the spec: `GatewayAgentIdentity.session_key` from
`app.services.openclaw.shared` is a pure, deterministic derivation from
gateway identity. -/
def session_key (gw : Gateway) : String :=
  "gateway-main-session-" ++ toString gw.id

/-- Modelled from the spec: `GatewayAgentIdentity.openclaw_agent_id` is a
pure, deterministic external identifier derived from gateway identity. -/
def openclaw_agent_id (gw : Gateway) : String :=
  "gateway-main-agent-" ++ toString gw.id

end GatewayAgentIdentity

/-- Embeds `DefaultGatewayMainAgentManager.build_main_agent_name`. -/
def build_main_agent_name (gw : Gateway) : String :=
  gw.name ++ " Gateway Agent"

/-- Embeds `DefaultGatewayMainAgentManager.build_identity_profile`. -/
def build_identity_profile : List (String × String) :=
  [("role", "Gateway Agent"),
   ("communication_style", "direct, concise, practical"),
   ("emoji", ":compass:")]

/-- The database store of agent rows, with an allocator for fresh ids.
Row order models the query order seen by `.first(...)`. -/
structure AgentDB where
  agents : List Agent
  nextId : Nat
deriving Repr, DecidableEq

/-- The predicate of `find_main_agent`'s query:
`gateway_id == gateway.id` and `board_id IS NULL`. -/
def isMainFor (gw : Gateway) (a : Agent) : Bool :=
  a.gateway_id == gw.id && a.board_id == none

/-- Embeds `find_main_agent`, returning the position and value of the first
matching row (`.first(self.session)`). -/
def findMain? (gw : Gateway) : List Agent → Option (Nat × Agent)
  | [] => none
  | a :: rest =>
    if isMainFor gw a then some (0, a)
    else (findMain? gw rest).map (fun p => (p.1 + 1, p.2))

/-- Step `if agent.board_id is not None: agent.board_id = None; changed = True`. -/
def fixBoardId (st : Agent × Bool) : Agent × Bool :=
  if st.1.board_id ≠ none then ({ st.1 with board_id := none }, true) else st

/-- Step `if agent.gateway_id != gateway.id: ...`. -/
def fixGatewayId (gw : Gateway) (st : Agent × Bool) : Agent × Bool :=
  if st.1.gateway_id ≠ gw.id then ({ st.1 with gateway_id := gw.id }, true) else st

/-- Step `if agent.is_board_lead: agent.is_board_lead = False; changed = True`. -/
def fixBoardLead (st : Agent × Bool) : Agent × Bool :=
  if st.1.is_board_lead then ({ st.1 with is_board_lead := false }, true) else st

/-- Step `if agent.name != main_agent_name: ...`. -/
def fixName (gw : Gateway) (st : Agent × Bool) : Agent × Bool :=
  if st.1.name ≠ build_main_agent_name gw then
    ({ st.1 with name := build_main_agent_name gw }, true) else st

/-- Step `if agent.openclaw_session_id != session_key: ...`. -/
def fixSessionKey (gw : Gateway) (st : Agent × Bool) : Agent × Bool :=
  if st.1.openclaw_session_id ≠ GatewayAgentIdentity.session_key gw then
    ({ st.1 with openclaw_session_id := GatewayAgentIdentity.session_key gw }, true) else st

/-- Step `if agent.heartbeat_config is None: ... DEFAULT_HEARTBEAT_CONFIG.copy()`. -/
def fixHeartbeat (st : Agent × Bool) : Agent × Bool :=
  if st.1.heartbeat_config = none then
    ({ st.1 with heartbeat_config := some DEFAULT_HEARTBEAT_CONFIG }, true) else st

/-- Step `if agent.identity_profile is None: agent.identity_profile = identity_profile`. -/
def fixProfile (st : Agent × Bool) : Agent × Bool :=
  if st.1.identity_profile = none then
    ({ st.1 with identity_profile := some build_identity_profile }, true) else st

/-- Step `if not agent.status: agent.status = "provisioning"; changed = True`. -/
def fixStatus (st : Agent × Bool) : Agent × Bool :=
  if st.1.status = "" then ({ st.1 with status := "provisioning" }, true) else st

/-- The if-chain of field corrections in `upsert_main_agent_record`
(lines 178-201 of `admin_service.py`), applied in source order; each
triggered branch sets `changed` to true. -/
def applyCorrections (gw : Gateway) (a : Agent) (changed : Bool) :
    Agent × Bool :=
  fixStatus (fixProfile (fixHeartbeat (fixSessionKey gw (fixName gw
    (fixBoardLead (fixGatewayId gw (fixBoardId (a, changed))))))))

/-- The fresh agent constructed when no main agent exists
(lines 166-175 of `admin_service.py`). `updated_at` is immediately
restamped by the `changed` branch, so its initial value is immaterial. -/
def newMainAgent (gw : Gateway) (freshId : Nat) (now : Nat) : Agent :=
  { id := freshId
    name := build_main_agent_name gw
    status := "provisioning"
    board_id := none
    gateway_id := gw.id
    is_board_lead := false
    openclaw_session_id := GatewayAgentIdentity.session_key gw
    heartbeat_config := some DEFAULT_HEARTBEAT_CONFIG
    identity_profile := some build_identity_profile
    agent_token_hash := none
    provision_requested_at := none
    provision_action := none
    updated_at := now }

/-- Embeds `upsert_main_agent_record`: find-or-create the main agent for a gateway,
correct its fields through the if-chain, and, when changed, stamp
`updated_at` and stage the row. Returns (agent, changed, store). -/
def upsert_main_agent_record (gw : Gateway) (db : AgentDB) (now : Nat) :
    Agent × Bool × AgentDB :=
  match findMain? gw db.agents with
  | none =>
    let a0 := newMainAgent gw db.nextId now
    let (a1, _) := applyCorrections gw a0 true
    let a2 := { a1 with updated_at := now }
    (a2, true, { agents := db.agents ++ [a2], nextId := db.nextId + 1 })
  | some (i, a0) =>
    let (a1, changed) := applyCorrections gw a0 false
    if changed then
      let a2 := { a1 with updated_at := now }
      (a2, true, { db with agents := db.agents.set i a2 })
    else
      (a0, false, db)

/-- An agent record on which every branch of the correction if-chain is a
no-op for gateway `gw`. -/
def reconciledB (gw : Gateway) (a : Agent) : Bool :=
  a.board_id == none && a.gateway_id == gw.id && !a.is_board_lead &&
  a.name == build_main_agent_name gw &&
  a.openclaw_session_id == GatewayAgentIdentity.session_key gw &&
  a.heartbeat_config.isSome && a.identity_profile.isSome && decide (a.status ≠ "")

/-- Number of main-agent rows for `gw` in the store. -/
def countMain (gw : Gateway) (l : List Agent) : Nat :=
  l.countP (isMainFor gw)

/-- A Python value as seen by the roster-parsing helpers: the payload of
`openclaw_call("agents.list", ...)` may be any JSON-like shape. -/
inductive PyVal where
  | pynone
  | pybool (b : Bool)
  | pyint (n : Int)
  | pystr (s : String)
  | pylist (items : List PyVal)
  | pydict (entries : List (String × PyVal))
deriving Repr

/-- Embeds `d.get(k)`: Python dict lookup (keys are unique; first match). -/
def dictGet (entries : List (String × PyVal)) (k : String) : Option PyVal :=
  (entries.find? (fun e => e.1 == k)).map (fun e => e.2)

/-- Python truthiness of a `PyVal`, as used by `payload.get("agents") or []`. -/
def truthy : PyVal → Bool
  | .pynone => false
  | .pybool b => b
  | .pyint n => n ≠ 0
  | .pystr s => s ≠ ""
  | .pylist l => !l.isEmpty
  | .pydict d => !d.isEmpty

/-- One iteration of the `for key in ("id", "agentId", "agent_id")` loop:
`raw = item.get(key); if isinstance(raw, str) and raw.strip(): return raw.strip()`. -/
def idUnderKey (entries : List (String × PyVal)) (k : String) : Option String :=
  match dictGet entries k with
  | some (.pystr raw) => if raw.trim = "" then none else some raw.trim
  | _ => none

/-- Embeds `GatewayAdminLifecycleService.extract_agent_id_from_entry`. -/
def extract_agent_id_from_entry (item : PyVal) : Option String :=
  match item with
  | .pystr s => if s.trim = "" then none else some s.trim
  | .pydict entries =>
    ((idUnderKey entries "id").orElse (fun _ =>
      (idUnderKey entries "agentId").orElse (fun _ =>
        idUnderKey entries "agent_id")))
  | _ => none

/-- Embeds `GatewayAdminLifecycleService.extract_agents_list`. -/
def extract_agents_list (payload : PyVal) : List PyVal :=
  match payload with
  | .pylist items => items
  | .pydict entries =>
    let agents := match dictGet entries "agents" with
      | none => PyVal.pylist []
      | some v => if truthy v then v else PyVal.pylist []
    match agents with
    | .pylist items => items
    | _ => []
  | _ => []

/-- Embeds `gateway_has_main_agent_entry`: the remote `agents.list` outcome is the
oracle `remote`. Returns (result, whether a remote call was issued); only
`OpenClawGatewayError` is caught, any other exception propagates. -/
def gateway_has_main_agent_entry (gw : Gateway) (remote : Except ExcKind PyVal) :
    Except ExcKind (Bool × Bool) :=
  if !truthyOptStr gw.url then .ok (false, false)
  else
    let target := GatewayAgentIdentity.openclaw_agent_id gw
    match remote with
    | .error .gatewayError => .ok (true, true)
    | .error e => .error e
    | .ok payload =>
      .ok ((extract_agents_list payload).any
        (fun item => extract_agent_id_from_entry item == some target), true)

/-- Modelled from the spec: `app.core.agent_tokens.hash_agent_token` — an
opaque credential hash of the raw token (injective stand-in). -/
def hash_agent_token (t : String) : String :=
  "sha256:" ++ t

/-- Outcomes of the three remote calls inside `provision_main_agent_record`:
`none` means the call succeeds, `some e` means it raises `e`. -/
structure RemoteEnv where
  provisionOutcome : Option ExcKind
  ensureSessionOutcome : Option ExcKind
  sendMessageOutcome : Option ExcKind
deriving Repr, DecidableEq

/-- Observable effects of `provision_main_agent_record`, in program order. -/
inductive Event where
  | commit
  | remoteProvision
  | remoteEnsureSession
  | remoteSendMessage
deriving Repr, DecidableEq

/-- The remote calls of the `try` block in program order: `provision_main_agent`,
then `ensure_session`, then (when `notify`) `send_message`; the first raised
exception aborts the rest of the block. Returns (events issued, raised exc). -/
def remoteCallEvents (env : RemoteEnv) (notify : Bool) : List Event × Option ExcKind :=
  match env.provisionOutcome with
  | some e => ([.remoteProvision], some e)
  | none =>
    match env.ensureSessionOutcome with
    | some e => ([.remoteProvision, .remoteEnsureSession], some e)
    | none =>
      if notify then
        match env.sendMessageOutcome with
        | some e => ([.remoteProvision, .remoteEnsureSession, .remoteSendMessage], some e)
        | none => ([.remoteProvision, .remoteEnsureSession, .remoteSendMessage], none)
      else ([.remoteProvision, .remoteEnsureSession], none)

/-- The `except` chain of `provision_main_agent_record` (lines 277-299):
`OpenClawGatewayError` → warning, swallowed; `(OSError, RuntimeError,
ValueError)` (which includes `TimeoutError`, a subclass of `OSError`) →
error, swallowed; bare `Exception` → critical, swallowed. `none` means the
exception does not propagate. -/
def handleProvisionExc : ExcKind → Option ExcKind
  | .gatewayError => none
  | .osError => none
  | .timeoutError => none
  | .runtimeError => none
  | .valueError => none
  | .otherError => none

/-- Embeds `session.add(agent); await session.commit()`: write the row into the
durable store (update the row with this id, or insert it). -/
def commitAgent (db : AgentDB) (a : Agent) : AgentDB :=
  if db.agents.any (fun x => x.id == a.id) then
    { db with agents := db.agents.map (fun x => if x.id == a.id then a else x) }
  else
    { db with agents := db.agents ++ [a] }

/-- Result of `provision_main_agent_record`: the returned agent, the durable
store after the commit, and the effect trace. -/
structure ProvisionResult where
  agent : Agent
  db : AgentDB
  events : List Event
deriving Repr

/-- Embeds `provision_main_agent_record`: rotate the credential and stamp the
provisioning fields locally, commit, then attempt the remote calls, routing
any raised exception through the `except` chain. The fresh raw token and
the remote outcomes are inputs. -/
def provision_main_agent_record (gw : Gateway) (agent : Agent) (db : AgentDB)
    (raw_token : String) (now : Nat) (action : String) (notify : Bool)
    (env : RemoteEnv) : Except ExcKind ProvisionResult :=
  let a1 := { agent with
    agent_token_hash := some (hash_agent_token raw_token)
    provision_requested_at := some now
    provision_action := some action
    updated_at := now }
  let a2 := if a1.heartbeat_config = none then
    { a1 with heartbeat_config := some DEFAULT_HEARTBEAT_CONFIG } else a1
  let db1 := commitAgent db a2
  if !truthyOptStr gw.url then .ok ⟨a2, db1, [Event.commit]⟩
  else
    let (evs, raised) := remoteCallEvents env notify
    match raised with
    | none => .ok ⟨a2, db1, Event.commit :: evs⟩
    | some e =>
      match handleProvisionExc e with
      | none => .ok ⟨a2, db1, Event.commit :: evs⟩
      | some e2 => .error e2

/-- The operations of `GatewayOperation` used by the onboarding dispatcher. -/
inductive GatewayOperation where
  | ONBOARDING_START_DISPATCH
  | ONBOARDING_ANSWER_DISPATCH
deriving Repr, DecidableEq

/-- An error surfaced to the dispatcher's caller: either the HTTP-shaped
translation of a gateway/timeout error, or a re-raised original exception. -/
inductive HttpLikeError where
  | http (op : GatewayOperation) (exc : ExcKind)
  | raw (exc : ExcKind)
deriving Repr, DecidableEq

/-- Modelled from the spec: `map_gateway_error_to_http_exception` from
`app.services.openclaw.exceptions` translates a gateway/timeout error into a
protocol-level error for the named operation. -/
def map_gateway_error_to_http_exception (op : GatewayOperation) (exc : ExcKind) :
    HttpLikeError :=
  .http op exc

/-- Embeds `BoardOnboardingMessagingService.dispatch_start_prompt`: the board's
gateway is already resolved (`require_gateway_config_for_board`, a shared
precondition helper), the message-send outcome is the oracle `sendOutcome`.
`except (OpenClawGatewayError, TimeoutError)` → translated and raised;
`except Exception` → re-raised unchanged. -/
def dispatch_start_prompt (gw : Gateway) (sendOutcome : Option ExcKind) :
    Except HttpLikeError String :=
  let session_key := GatewayAgentIdentity.session_key gw
  match sendOutcome with
  | none => .ok session_key
  | some e =>
    match e with
    | .gatewayError =>
      .error (map_gateway_error_to_http_exception .ONBOARDING_START_DISPATCH e)
    | .timeoutError =>
      .error (map_gateway_error_to_http_exception .ONBOARDING_START_DISPATCH e)
    | _ => .error (.raw e)

/-- One gateway of an `ensure_gateway_agents_exist` sweep, with the oracles
for its remote calls: the roster listing outcome, the fresh raw token, and
the provisioning remote outcomes. -/
structure SweepStep where
  gw : Gateway
  now : Nat
  raw_token : String
  roster : Except ExcKind PyVal
  renv : RemoteEnv

/-- What one completed sweep iteration did: the post-reconciliation agent,
the reconciler's `changed` flag, the roster-check verdict, and `some n`
when provisioning was invoked with `notify = n`. -/
structure IterRecord where
  gwId : Nat
  agentAfter : Agent
  changed : Bool
  hasEntry : Bool
  provisionNotify : Option Bool
deriving Repr

/-- Embeds `ensure_gateway_agents_exist`: sequential per-gateway loop — reconcile,
roster-check, and provision (notify=False) when the record changed, the
credential hash is missing/empty, or the roster entry is missing. An
uncaught exception aborts the remaining iterations. -/
def ensure_gateway_agents_exist :
    List SweepStep → AgentDB → Except ExcKind (AgentDB × List IterRecord)
  | [], db => .ok (db, [])
  | step :: rest, db =>
    match upsert_main_agent_record step.gw db step.now with
    | (agent, gateway_changed, db1) =>
      match gateway_has_main_agent_entry step.gw step.roster with
      | .error e => .error e
      | .ok (has_gateway_entry, _) =>
        let needs_provision :=
          gateway_changed || !truthyOptStr agent.agent_token_hash || !has_gateway_entry
        if needs_provision then
          match provision_main_agent_record step.gw agent db1 step.raw_token
              step.now "provision" false step.renv with
          | .error e => .error e
          | .ok r =>
            match ensure_gateway_agents_exist rest r.db with
            | .error e => .error e
            | .ok (dbF, recs) =>
              .ok (dbF, ⟨step.gw.id, agent, gateway_changed, has_gateway_entry, some false⟩ :: recs)
        else
          match ensure_gateway_agents_exist rest db1 with
          | .error e => .error e
          | .ok (dbF, recs) =>
            .ok (dbF, ⟨step.gw.id, agent, gateway_changed, has_gateway_entry, none⟩ :: recs)

/-- Embeds `app.models.tasks.Task`, the fields touched by the cleanup. -/
structure Task where
  id : Nat
  assigned_agent_id : Option Nat
  status : String
  in_progress_at : Option Nat
  updated_at : Nat
deriving Repr, DecidableEq

/-- Embeds `app.models.activity_events.ActivityEvent`, the fields touched. -/
structure ActivityEvent where
  id : Nat
  agent_id : Option Nat
deriving Repr, DecidableEq

/-- Embeds `app.models.approvals.Approval`, the fields touched. -/
structure Approval where
  id : Nat
  agent_id : Option Nat
deriving Repr, DecidableEq

/-- The tables `clear_agent_foreign_keys` updates. -/
structure OrgDB where
  tasks : List Task
  events : List ActivityEvent
  approvals : List Approval
deriving Repr, DecidableEq

/-- Modelled from the spec: `crud.update_where(session, Model, *predicates,
**field_updates, commit)` applies the field updates to every row matching all
predicates and commits only when `commit` is true. Returns (rows, committed). -/
def update_where {α : Type} (rows : List α) (pred : α → Bool) (upd : α → α)
    (commit : Bool) : List α × Bool :=
  (rows.map (fun r => if pred r then upd r else r), commit)

/-- Embeds `clear_agent_foreign_keys`: the four bulk updates in source order, each
with `commit=False`; returns the store and the four commit flags. -/
def clear_agent_foreign_keys (agent_id : Nat) (now : Nat) (db : OrgDB) :
    OrgDB × List Bool :=
  let r1 := update_where db.tasks
    (fun t => t.assigned_agent_id == some agent_id && t.status == "in_progress")
    (fun t => { t with assigned_agent_id := none, status := "inbox",
                       in_progress_at := none, updated_at := now })
    false
  let r2 := update_where r1.1
    (fun t => t.assigned_agent_id == some agent_id && t.status != "in_progress")
    (fun t => { t with assigned_agent_id := none, updated_at := now })
    false
  let r3 := update_where db.events
    (fun e => e.agent_id == some agent_id)
    (fun e => { e with agent_id := none })
    false
  let r4 := update_where db.approvals
    (fun a => a.agent_id == some agent_id)
    (fun a => { a with agent_id := none })
    false
  ({ tasks := r2.1, events := r3.1, approvals := r4.1 }, [r1.2, r2.2, r3.2, r4.2])

/-- The closed form of the correction if-chain's output record (derived form
used to state frame lemmas; proved equal to `applyCorrections`'s output). -/
def canonAgent (gw : Gateway) (a : Agent) : Agent :=
  { a with
    board_id := none
    gateway_id := gw.id
    is_board_lead := false
    name := build_main_agent_name gw
    openclaw_session_id := GatewayAgentIdentity.session_key gw
    heartbeat_config := some (a.heartbeat_config.getD DEFAULT_HEARTBEAT_CONFIG)
    identity_profile := some (a.identity_profile.getD build_identity_profile)
    status := if a.status = "" then "provisioning" else a.status }

/-- The closed form of the agent written by `provision_main_agent_record`
before the commit (derived form, proved equal to the function's output). -/
def provAgent (agent : Agent) (raw_token : String) (now : Nat) (action : String) :
    Agent :=
  let a1 := { agent with
    agent_token_hash := some (hash_agent_token raw_token)
    provision_requested_at := some now
    provision_action := some action
    updated_at := now }
  if a1.heartbeat_config = none then
    { a1 with heartbeat_config := some DEFAULT_HEARTBEAT_CONFIG } else a1

/-- The closed form of `provision_main_agent_record`'s effect trace. -/
def provEvents (gw : Gateway) (env : RemoteEnv) (notify : Bool) : List Event :=
  if !truthyOptStr gw.url then [Event.commit]
  else Event.commit :: (remoteCallEvents env notify).1

/-- A finite sequence of reconcile calls for one gateway, each with its own
clock reading, threading the store. -/
def iterateUpserts (gw : Gateway) (times : List Nat) (db : AgentDB) : AgentDB :=
  times.foldl (fun d t => (upsert_main_agent_record gw d t).2.2) db

/-- A sweep step whose roster listing either succeeds or raises only the
distinguished gateway error (the failure classes the loop body catches). -/
def rosterBenign (s : SweepStep) : Bool :=
  match s.roster with
  | .ok _ => true
  | .error .gatewayError => true
  | .error _ => false

/-- Concrete fixtures used by the witness theorems. -/
def gwA : Gateway := ⟨1, 1, "Alpha", some "http://gw-a", some "tok-a"⟩

def gwB : Gateway := ⟨2, 1, "Beta", some "http://gw-b", none⟩

def gwNoUrl : Gateway := ⟨3, 1, "Gamma", none, none⟩

def dbEmpty : AgentDB := ⟨[], 0⟩

def envOk : RemoteEnv := ⟨none, none, none⟩

def envAllGatewayErr : RemoteEnv :=
  ⟨some .gatewayError, some .gatewayError, some .gatewayError⟩

def agA : Agent := newMainAgent gwA 0 0

def dbOne : AgentDB := ⟨[agA], 1⟩

def stepW5 : SweepStep := ⟨gwA, 7, "tokW", .ok (.pylist []), envOk⟩

def agentW5u : Agent := newMainAgent gwA 0 7

def agentW5p : Agent := provAgent agentW5u "tokW" 7 "provision"

def dbW5 : AgentDB := ⟨[agentW5p], 1⟩

def recW5 : IterRecord := ⟨1, agentW5u, true, false, some false⟩

def stepBadRoster : SweepStep := ⟨gwA, 1, "t1", .error .osError, envOk⟩

def stepW8 : SweepStep := ⟨gwB, 2, "t2", .ok (.pylist []), envOk⟩

/-! ### Lemmas about the correction if-chain -/

theorem fixBoardId_fst (st : Agent × Bool) :
    (fixBoardId st).1 = { st.1 with board_id := none } := by
  obtain ⟨⟨i, nm, stt, bid, gid, lead, sid, hb, ip, th, pra, pa, ua⟩, c⟩ := st
  simp only [fixBoardId]
  split <;> simp_all

theorem fixGatewayId_fst (gw : Gateway) (st : Agent × Bool) :
    (fixGatewayId gw st).1 = { st.1 with gateway_id := gw.id } := by
  obtain ⟨⟨i, nm, stt, bid, gid, lead, sid, hb, ip, th, pra, pa, ua⟩, c⟩ := st
  simp only [fixGatewayId]
  split <;> simp_all

theorem fixBoardLead_fst (st : Agent × Bool) :
    (fixBoardLead st).1 = { st.1 with is_board_lead := false } := by
  obtain ⟨⟨i, nm, stt, bid, gid, lead, sid, hb, ip, th, pra, pa, ua⟩, c⟩ := st
  simp only [fixBoardLead]
  split <;> simp_all

theorem fixName_fst (gw : Gateway) (st : Agent × Bool) :
    (fixName gw st).1 = { st.1 with name := build_main_agent_name gw } := by
  obtain ⟨⟨i, nm, stt, bid, gid, lead, sid, hb, ip, th, pra, pa, ua⟩, c⟩ := st
  simp only [fixName]
  split <;> simp_all

theorem fixSessionKey_fst (gw : Gateway) (st : Agent × Bool) :
    (fixSessionKey gw st).1 =
      { st.1 with openclaw_session_id := GatewayAgentIdentity.session_key gw } := by
  obtain ⟨⟨i, nm, stt, bid, gid, lead, sid, hb, ip, th, pra, pa, ua⟩, c⟩ := st
  simp only [fixSessionKey]
  split <;> simp_all

theorem fixHeartbeat_fst (st : Agent × Bool) :
    (fixHeartbeat st).1 =
      { st.1 with
        heartbeat_config := some (st.1.heartbeat_config.getD DEFAULT_HEARTBEAT_CONFIG) } := by
  obtain ⟨⟨i, nm, stt, bid, gid, lead, sid, hb, ip, th, pra, pa, ua⟩, c⟩ := st
  simp only [fixHeartbeat]
  split
  · next h => simp_all
  · next h => cases hb with
    | none => simp_all
    | some v => simp_all

theorem fixProfile_fst (st : Agent × Bool) :
    (fixProfile st).1 =
      { st.1 with
        identity_profile := some (st.1.identity_profile.getD build_identity_profile) } := by
  obtain ⟨⟨i, nm, stt, bid, gid, lead, sid, hb, ip, th, pra, pa, ua⟩, c⟩ := st
  simp only [fixProfile]
  split
  · next h => simp_all
  · next h => cases ip with
    | none => simp_all
    | some v => simp_all

theorem fixStatus_fst (st : Agent × Bool) :
    (fixStatus st).1 =
      { st.1 with status := if st.1.status = "" then "provisioning" else st.1.status } := by
  obtain ⟨⟨i, nm, stt, bid, gid, lead, sid, hb, ip, th, pra, pa, ua⟩, c⟩ := st
  simp only [fixStatus]
  split <;> simp_all

theorem fixBoardId_noop (st : Agent × Bool) (h : st.1.board_id = none) :
    fixBoardId st = st := by
  simp [fixBoardId, h]

theorem fixGatewayId_noop (gw : Gateway) (st : Agent × Bool)
    (h : st.1.gateway_id = gw.id) : fixGatewayId gw st = st := by
  simp [fixGatewayId, h]

theorem fixBoardLead_noop (st : Agent × Bool) (h : st.1.is_board_lead = false) :
    fixBoardLead st = st := by
  simp [fixBoardLead, h]

theorem fixName_noop (gw : Gateway) (st : Agent × Bool)
    (h : st.1.name = build_main_agent_name gw) : fixName gw st = st := by
  simp [fixName, h]

theorem fixSessionKey_noop (gw : Gateway) (st : Agent × Bool)
    (h : st.1.openclaw_session_id = GatewayAgentIdentity.session_key gw) :
    fixSessionKey gw st = st := by
  simp [fixSessionKey, h]

theorem fixHeartbeat_noop (st : Agent × Bool) (h : st.1.heartbeat_config ≠ none) :
    fixHeartbeat st = st := by
  simp [fixHeartbeat, h]

theorem fixProfile_noop (st : Agent × Bool) (h : st.1.identity_profile ≠ none) :
    fixProfile st = st := by
  simp [fixProfile, h]

theorem fixStatus_noop (st : Agent × Bool) (h : st.1.status ≠ "") :
    fixStatus st = st := by
  simp [fixStatus, h]

/-- The output of the if-chain is the canonical corrected record. -/
theorem applyCorrections_fst (gw : Gateway) (a : Agent) (c : Bool) :
    (applyCorrections gw a c).1 = canonAgent gw a := by
  unfold applyCorrections
  rw [fixStatus_fst, fixProfile_fst, fixHeartbeat_fst, fixSessionKey_fst,
    fixName_fst, fixBoardLead_fst, fixGatewayId_fst, fixBoardId_fst]
  rfl

/-- On an already-reconciled record the whole if-chain is a no-op and the
`changed` flag passes through. -/
theorem applyCorrections_of_reconciled (gw : Gateway) (a : Agent) (c : Bool)
    (h : reconciledB gw a = true) : applyCorrections gw a c = (a, c) := by
  unfold reconciledB at h
  simp only [Bool.and_eq_true, beq_iff_eq, Bool.not_eq_true',
    Option.isSome_iff_ne_none, decide_eq_true_eq] at h
  obtain ⟨⟨⟨⟨⟨⟨⟨h1, h2⟩, h3⟩, h4⟩, h5⟩, h6⟩, h7⟩, h8⟩ := h
  unfold applyCorrections
  rw [fixBoardId_noop _ h1, fixGatewayId_noop _ _ h2, fixBoardLead_noop _ h3,
    fixName_noop _ _ h4, fixSessionKey_noop _ _ h5, fixHeartbeat_noop _ h6,
    fixProfile_noop _ h7, fixStatus_noop _ h8]

theorem canonAgent_reconciled (gw : Gateway) (a : Agent) :
    reconciledB gw (canonAgent gw a) = true := by
  have hst : (if a.status = "" then "provisioning" else a.status) ≠ "" := by
    split <;> simp_all
  simp [reconciledB, canonAgent, hst]

theorem fixBoardId_snd (st : Agent × Bool) (h : (fixBoardId st).2 = false) :
    st.2 = false ∧ st.1.board_id = none := by
  unfold fixBoardId at h
  split at h
  · simp at h
  · next hc => push_neg at hc; exact ⟨h, hc⟩

theorem fixGatewayId_snd (gw : Gateway) (st : Agent × Bool)
    (h : (fixGatewayId gw st).2 = false) : st.2 = false ∧ st.1.gateway_id = gw.id := by
  unfold fixGatewayId at h
  split at h
  · simp at h
  · next hc => push_neg at hc; exact ⟨h, hc⟩

theorem fixBoardLead_snd (st : Agent × Bool) (h : (fixBoardLead st).2 = false) :
    st.2 = false ∧ st.1.is_board_lead = false := by
  unfold fixBoardLead at h
  split at h
  · simp at h
  · next hc => simp only [Bool.not_eq_true] at hc; exact ⟨h, hc⟩

theorem fixName_snd (gw : Gateway) (st : Agent × Bool)
    (h : (fixName gw st).2 = false) :
    st.2 = false ∧ st.1.name = build_main_agent_name gw := by
  unfold fixName at h
  split at h
  · simp at h
  · next hc => push_neg at hc; exact ⟨h, hc⟩

theorem fixSessionKey_snd (gw : Gateway) (st : Agent × Bool)
    (h : (fixSessionKey gw st).2 = false) :
    st.2 = false ∧ st.1.openclaw_session_id = GatewayAgentIdentity.session_key gw := by
  unfold fixSessionKey at h
  split at h
  · simp at h
  · next hc => push_neg at hc; exact ⟨h, hc⟩

theorem fixHeartbeat_snd (st : Agent × Bool) (h : (fixHeartbeat st).2 = false) :
    st.2 = false ∧ st.1.heartbeat_config ≠ none := by
  unfold fixHeartbeat at h
  split at h
  · simp at h
  · next hc => exact ⟨h, hc⟩

theorem fixProfile_snd (st : Agent × Bool) (h : (fixProfile st).2 = false) :
    st.2 = false ∧ st.1.identity_profile ≠ none := by
  unfold fixProfile at h
  split at h
  · simp at h
  · next hc => exact ⟨h, hc⟩

theorem fixStatus_snd (st : Agent × Bool) (h : (fixStatus st).2 = false) :
    st.2 = false ∧ st.1.status ≠ "" := by
  unfold fixStatus at h
  split at h
  · simp at h
  · next hc => exact ⟨h, hc⟩

/-- If the whole chain reports `changed = false` then the incoming flag was
false and the record was already reconciled. -/
theorem applyCorrections_snd_false (gw : Gateway) (a : Agent) (c : Bool)
    (h : (applyCorrections gw a c).2 = false) :
    reconciledB gw a = true ∧ c = false := by
  unfold applyCorrections at h
  obtain ⟨h7, g8⟩ := fixStatus_snd _ h
  obtain ⟨h6, g7⟩ := fixProfile_snd _ h7
  obtain ⟨h5, g6⟩ := fixHeartbeat_snd _ h6
  obtain ⟨h4, g5⟩ := fixSessionKey_snd _ _ h5
  obtain ⟨h3, g4⟩ := fixName_snd _ _ h4
  obtain ⟨h2, g3⟩ := fixBoardLead_snd _ h3
  obtain ⟨h1, g2⟩ := fixGatewayId_snd _ _ h2
  obtain ⟨h0, g1⟩ := fixBoardId_snd _ h1
  rw [fixBoardId_noop _ g1] at g2 g3 g4 g5 g6 g7 g8
  rw [fixGatewayId_noop _ _ g2] at g3 g4 g5 g6 g7 g8
  rw [fixBoardLead_noop _ g3] at g4 g5 g6 g7 g8
  rw [fixName_noop _ _ g4] at g5 g6 g7 g8
  rw [fixSessionKey_noop _ _ g5] at g6 g7 g8
  rw [fixHeartbeat_noop _ g6] at g7 g8
  rw [fixProfile_noop _ g7] at g8
  refine ⟨?_, h0⟩
  simp only [reconciledB, Bool.and_eq_true, beq_iff_eq, Bool.not_eq_true',
    Option.isSome_iff_ne_none, decide_eq_true_eq]
  exact ⟨⟨⟨⟨⟨⟨⟨g1, g2⟩, g3⟩, g4⟩, g5⟩, g6⟩, g7⟩, g8⟩

theorem reconciledB_isMain (gw : Gateway) (a : Agent)
    (h : reconciledB gw a = true) : isMainFor gw a = true := by
  simp only [reconciledB, Bool.and_eq_true, beq_iff_eq] at h
  simp [isMainFor, h.1.1.1.1.1.1.1, h.1.1.1.1.1.1.2]

theorem reconciledB_updated_at (gw : Gateway) (a : Agent) (t : Nat) :
    reconciledB gw { a with updated_at := t } = reconciledB gw a := rfl

theorem newMainAgent_reconciled (gw : Gateway) (i t : Nat) :
    reconciledB gw (newMainAgent gw i t) = true := by
  simp [reconciledB, newMainAgent]

/-! ### Lemmas about `findMain?` and `countMain` -/

theorem findMain?_isMain (gw : Gateway) (l : List Agent) (i : Nat) (a : Agent)
    (h : findMain? gw l = some (i, a)) : isMainFor gw a = true := by
  induction l generalizing i with
  | nil => simp [findMain?] at h
  | cons b rest ih =>
    unfold findMain? at h
    by_cases hb : isMainFor gw b
    · simp [hb] at h
      exact h.2 ▸ hb
    · simp [hb] at h
      obtain ⟨j, hj, hji⟩ := h
      exact ih j hj

theorem findMain?_eq_none (gw : Gateway) (l : List Agent) :
    findMain? gw l = none ↔ ∀ a ∈ l, isMainFor gw a = false := by
  induction l with
  | nil => simp [findMain?]
  | cons b rest ih =>
    unfold findMain?
    by_cases hb : isMainFor gw b
    · simp [hb]
    · have hb' : isMainFor gw b = false := by simpa using hb
      simp [hb', Option.map_eq_none', ih]

theorem findMain?_append_singleton (gw : Gateway) (l : List Agent) (a : Agent)
    (hl : findMain? gw l = none) (ha : isMainFor gw a = true) :
    findMain? gw (l ++ [a]) = some (l.length, a) := by
  induction l with
  | nil => simp [findMain?, ha]
  | cons b rest ih =>
    unfold findMain? at hl ⊢
    by_cases hb : isMainFor gw b
    · simp [hb] at hl
    · have hb' : isMainFor gw b = false := by simpa using hb
      simp only [hb', Bool.false_eq_true, if_false, Option.map_eq_none'] at hl
      simp [hb', ih hl]

theorem findMain?_set (gw : Gateway) (l : List Agent) (i : Nat) (a a' : Agent)
    (h : findMain? gw l = some (i, a)) (h' : isMainFor gw a' = true) :
    findMain? gw (l.set i a') = some (i, a') := by
  induction l generalizing i with
  | nil => simp [findMain?] at h
  | cons b rest ih =>
    unfold findMain? at h
    by_cases hb : isMainFor gw b
    · simp [hb] at h
      obtain ⟨hi, _⟩ := h
      subst hi
      simp [List.set, findMain?, h']
    · simp [hb] at h
      obtain ⟨j, hj, hji⟩ := h
      subst hji
      simp [List.set, findMain?, hb, ih j hj]

theorem countMain_append_singleton (gw : Gateway) (l : List Agent) (a : Agent) :
    countMain gw (l ++ [a]) = countMain gw l + (if isMainFor gw a then 1 else 0) := by
  simp [countMain, List.countP_append, List.countP_cons]

theorem countMain_eq_zero_iff (gw : Gateway) (l : List Agent) :
    countMain gw l = 0 ↔ findMain? gw l = none := by
  rw [findMain?_eq_none]
  simp [countMain, List.countP_eq_zero]

theorem countMain_set (gw : Gateway) (l : List Agent) (i : Nat) (a a' : Agent)
    (h : findMain? gw l = some (i, a)) (h' : isMainFor gw a' = true) :
    countMain gw (l.set i a') = countMain gw l := by
  induction l generalizing i with
  | nil => simp [findMain?] at h
  | cons b rest ih =>
    unfold findMain? at h
    by_cases hb : isMainFor gw b
    · simp [hb] at h
      obtain ⟨hi, hba⟩ := h
      subst hi
      simp [List.set, countMain, List.countP_cons, hb, h']
    · simp [hb] at h
      obtain ⟨j, hj, hji⟩ := h
      subst hji
      have := ih j hj
      simp [List.set, countMain, List.countP_cons, hb, h'] at this ⊢
      exact this

/-! ### Characterization of `upsert_main_agent_record` -/

/-- When no main agent exists, the upsert creates the fresh record and
appends it. -/
theorem upsert_create (gw : Gateway) (db : AgentDB) (now : Nat)
    (hf : findMain? gw db.agents = none) :
    upsert_main_agent_record gw db now =
      (newMainAgent gw db.nextId now, true,
       ⟨db.agents ++ [newMainAgent gw db.nextId now], db.nextId + 1⟩) := by
  unfold upsert_main_agent_record
  rw [hf]
  dsimp only
  rw [applyCorrections_of_reconciled _ _ _ (newMainAgent_reconciled gw db.nextId now)]
  simp [newMainAgent]

/-- When a main agent is found, the upsert either corrects it in place and
stamps `updated_at`, or leaves everything untouched. -/
theorem upsert_found (gw : Gateway) (db : AgentDB) (now : Nat) (i : Nat) (a0 : Agent)
    (hf : findMain? gw db.agents = some (i, a0)) :
    upsert_main_agent_record gw db now =
      (if (applyCorrections gw a0 false).2 then
        ({ canonAgent gw a0 with updated_at := now }, true,
         { db with agents := db.agents.set i { canonAgent gw a0 with updated_at := now } })
      else (a0, false, db)) := by
  unfold upsert_main_agent_record
  rw [hf]
  rcases hac : applyCorrections gw a0 false with ⟨a1, changed⟩
  have ha1 : a1 = canonAgent gw a0 := by
    have := applyCorrections_fst gw a0 false
    rw [hac] at this
    exact this
  cases changed with
  | true => simp [hac, ha1]
  | false => simp [hac]

/-- A reconciled found record makes the whole upsert a no-op returning
`changed = false`. -/
theorem upsert_found_reconciled (gw : Gateway) (db : AgentDB) (now : Nat)
    (i : Nat) (a0 : Agent) (hf : findMain? gw db.agents = some (i, a0))
    (hr : reconciledB gw a0 = true) :
    upsert_main_agent_record gw db now = (a0, false, db) := by
  rw [upsert_found gw db now i a0 hf]
  rw [applyCorrections_of_reconciled gw a0 false hr]
  simp

/-- After any upsert, the returned agent is stored at some position, is the
first main-agent row for the gateway, and is fully reconciled. -/
theorem upsert_result_found (gw : Gateway) (db : AgentDB) (now : Nat) :
    ∃ j, findMain? gw (upsert_main_agent_record gw db now).2.2.agents =
        some (j, (upsert_main_agent_record gw db now).1) ∧
      reconciledB gw (upsert_main_agent_record gw db now).1 = true := by
  rcases hf : findMain? gw db.agents with _ | ⟨i, a0⟩
  · rw [upsert_create gw db now hf]
    refine ⟨db.agents.length, ?_, newMainAgent_reconciled gw db.nextId now⟩
    exact findMain?_append_singleton gw db.agents _ hf
      (reconciledB_isMain gw _ (newMainAgent_reconciled gw db.nextId now))
  · rw [upsert_found gw db now i a0 hf]
    by_cases hc : (applyCorrections gw a0 false).2
    · simp only [hc, if_true]
      have hrec : reconciledB gw { canonAgent gw a0 with updated_at := now } = true := by
        rw [reconciledB_updated_at]
        exact canonAgent_reconciled gw a0
      exact ⟨i, findMain?_set gw db.agents i a0 _ hf (reconciledB_isMain gw _ hrec), hrec⟩
    · simp only [hc, if_false]
      have hrec : reconciledB gw a0 = true := by
        have := applyCorrections_snd_false gw a0 false (by simpa using hc)
        exact this.1
      exact ⟨i, hf, hrec⟩

/-- One upsert on a store with no main agent adds exactly one; otherwise the
main-agent count is unchanged. -/
theorem countMain_upsert (gw : Gateway) (db : AgentDB) (now : Nat) :
    countMain gw (upsert_main_agent_record gw db now).2.2.agents =
      if countMain gw db.agents = 0 then 1 else countMain gw db.agents := by
  rcases hf : findMain? gw db.agents with _ | ⟨i, a0⟩
  · have h0 : countMain gw db.agents = 0 := (countMain_eq_zero_iff gw db.agents).mpr hf
    rw [upsert_create gw db now hf]
    simp only [h0, if_true]
    rw [countMain_append_singleton, h0,
      reconciledB_isMain gw _ (newMainAgent_reconciled gw db.nextId now)]
    rfl
  · have h0 : countMain gw db.agents ≠ 0 := by
      intro h
      rw [countMain_eq_zero_iff] at h
      rw [hf] at h
      cases h
    rw [upsert_found gw db now i a0 hf]
    by_cases hc : (applyCorrections gw a0 false).2
    · simp only [hc, if_true, h0, if_false]
      have hrec : reconciledB gw { canonAgent gw a0 with updated_at := now } = true := by
        rw [reconciledB_updated_at]
        exact canonAgent_reconciled gw a0
      exact countMain_set gw db.agents i a0 _ hf (reconciledB_isMain gw _ hrec)
    · have hc' : (applyCorrections gw a0 false).2 = false := by simpa using hc
      simp [hc', h0]

theorem countMain_iterateUpserts_one (gw : Gateway) (times : List Nat)
    (db : AgentDB) (hc : countMain gw db.agents = 1) :
    countMain gw (iterateUpserts gw times db).agents = 1 := by
  induction times generalizing db with
  | nil => simpa [iterateUpserts]
  | cons t ts ih =>
    have hstep : countMain gw (upsert_main_agent_record gw db t).2.2.agents = 1 := by
      rw [countMain_upsert, hc]
      simp
    have : iterateUpserts gw (t :: ts) db =
        iterateUpserts gw ts (upsert_main_agent_record gw db t).2.2 := by
      simp [iterateUpserts]
    rw [this]
    exact ih _ hstep

/-! ### Lemmas about `provision_main_agent_record` and the roster check -/

/-- The function `provision_main_agent_record` never propagates an exception: every
branch of the `except` chain swallows, so it always returns the stamped
agent, the committed store, and the effect trace. -/
theorem provision_eq (gw : Gateway) (agent : Agent) (db : AgentDB)
    (raw_token : String) (now : Nat) (action : String) (notify : Bool)
    (env : RemoteEnv) :
    provision_main_agent_record gw agent db raw_token now action notify env =
      .ok ⟨provAgent agent raw_token now action,
           commitAgent db (provAgent agent raw_token now action),
           provEvents gw env notify⟩ := by
  unfold provision_main_agent_record provAgent provEvents
  by_cases hu : truthyOptStr gw.url
  · simp only [hu, Bool.not_true, Bool.false_eq_true, if_false]
    rcases hr : remoteCallEvents env notify with ⟨evs, raised⟩
    cases raised with
    | none => rfl
    | some e => cases e <;> rfl
  · have hu' : truthyOptStr gw.url = false := by simpa using hu
    simp [hu']

theorem provAgent_id (agent : Agent) (raw_token : String) (now : Nat)
    (action : String) : (provAgent agent raw_token now action).id = agent.id := by
  unfold provAgent
  dsimp only
  split <;> rfl

theorem provAgent_token (agent : Agent) (raw_token : String) (now : Nat)
    (action : String) :
    (provAgent agent raw_token now action).agent_token_hash =
      some (hash_agent_token raw_token) := by
  unfold provAgent
  dsimp only
  split <;> rfl

theorem provAgent_requested (agent : Agent) (raw_token : String) (now : Nat)
    (action : String) :
    (provAgent agent raw_token now action).provision_requested_at = some now := by
  unfold provAgent
  dsimp only
  split <;> rfl

theorem provAgent_action (agent : Agent) (raw_token : String) (now : Nat)
    (action : String) :
    (provAgent agent raw_token now action).provision_action = some action := by
  unfold provAgent
  dsimp only
  split <;> rfl

theorem find_map_replace (l : List Agent) (a : Agent)
    (h : l.any (fun x => x.id == a.id) = true) :
    (l.map (fun x => if x.id == a.id then a else x)).find?
      (fun x => x.id == a.id) = some a := by
  induction l with
  | nil => simp at h
  | cons b rest ih =>
    simp only [List.any_cons, Bool.or_eq_true] at h
    by_cases hb : (b.id == a.id) = true
    · have hfb : (if (b.id == a.id) = true then a else b) = a := by simp [hb]
      rw [List.map_cons, hfb, List.find?_cons_of_pos _ (by simp)]
    · have hb' : (b.id == a.id) = false := by simpa using hb
      rcases h with h | h
      · rw [hb'] at h
        cases h
      · have hfb : (if (b.id == a.id) = true then a else b) = b := by simp [hb']
        rw [List.map_cons, hfb, List.find?_cons_of_neg _ (by simp [hb']), ih h]

theorem find_append_new (l : List Agent) (a : Agent)
    (h : l.any (fun x => x.id == a.id) = false) :
    (l ++ [a]).find? (fun x => x.id == a.id) = some a := by
  induction l with
  | nil => simp [List.find?]
  | cons b rest ih =>
    simp only [List.any_cons, Bool.or_eq_false_iff] at h
    simp [List.find?, h.1, ih h.2]

/-- The committed store always holds the written row under its id. -/
theorem commitAgent_find (db : AgentDB) (a : Agent) :
    (commitAgent db a).agents.find? (fun x => x.id == a.id) = some a := by
  unfold commitAgent
  by_cases hmem : db.agents.any (fun x => x.id == a.id) = true
  · simp only [hmem, if_true]
    exact find_map_replace db.agents a hmem
  · have hmem' : db.agents.any (fun x => x.id == a.id) = false := by simpa using hmem
    simp only [hmem', Bool.false_eq_true, if_false]
    exact find_append_new db.agents a hmem'

theorem commit_not_in_remote (env : RemoteEnv) (notify : Bool) :
    Event.commit ∉ (remoteCallEvents env notify).1 := by
  rcases env with ⟨p, s, m⟩
  unfold remoteCallEvents
  cases p <;> cases s <;> cases m <;> cases notify <;> simp

/-- The effect trace opens with the commit; no later commit occurs, so every
local state change is durable before the first remote call. -/
theorem provEvents_shape (gw : Gateway) (env : RemoteEnv) (notify : Bool) :
    ∃ evs, provEvents gw env notify = Event.commit :: evs ∧ Event.commit ∉ evs := by
  unfold provEvents
  by_cases hu : truthyOptStr gw.url
  · simp only [hu, Bool.not_true, Bool.false_eq_true, if_false]
    exact ⟨(remoteCallEvents env notify).1, rfl, commit_not_in_remote env notify⟩
  · have hu' : truthyOptStr gw.url = false := by simpa using hu
    simp [hu']

theorem any_extract_eq_decide (l : List PyVal) (t : String) :
    (l.any fun item => extract_agent_id_from_entry item == some t) =
      decide (∃ item ∈ l, extract_agent_id_from_entry item = some t) := by
  rw [Bool.eq_iff_iff]
  simp [List.any_eq_true]

/-! ### Claim theorems -/

/-- C1: calling `upsert_main_agent_record` twice in a row for the same
gateway, with no intervening change to the stored agent, returns
`changed = false` on the second call, and the second call returns the same
record (same identifier) as the first. -/
theorem upsert_main_agent_record_idempotent (gw : Gateway) (db : AgentDB)
    (t1 t2 : Nat) :
    (upsert_main_agent_record gw (upsert_main_agent_record gw db t1).2.2 t2).2.1 = false ∧
    (upsert_main_agent_record gw (upsert_main_agent_record gw db t1).2.2 t2).1.id =
      (upsert_main_agent_record gw db t1).1.id := by
  obtain ⟨j, hfind, hrec⟩ := upsert_result_found gw db t1
  rw [upsert_found_reconciled gw _ t2 j _ hfind hrec]
  exact ⟨rfl, rfl⟩

/-- C7: starting from a store with no main agent for the gateway, any
nonempty sequence of `upsert_main_agent_record` calls leaves exactly one
agent with `board_id` absent for that gateway — find-or-create keyed on the
gateway never creates a duplicate. -/
theorem upsert_maintains_single_main_agent (gw : Gateway) (db : AgentDB)
    (times : List Nat) (h0 : countMain gw db.agents = 0) (hne : times ≠ []) :
    countMain gw (iterateUpserts gw times db).agents = 1 := by
  cases times with
  | nil => exact absurd rfl hne
  | cons t ts =>
    have h1 : countMain gw (upsert_main_agent_record gw db t).2.2.agents = 1 := by
      rw [countMain_upsert, h0]
      simp
    have hfold : iterateUpserts gw (t :: ts) db =
        iterateUpserts gw ts (upsert_main_agent_record gw db t).2.2 := by
      simp [iterateUpserts]
    rw [hfold]
    exact countMain_iterateUpserts_one gw ts _ h1

/-- Witness for C7 at a concrete gateway, empty store and one call. -/
theorem upsert_maintains_single_main_agent_w :
    countMain gwA (iterateUpserts gwA [5] dbEmpty).agents = 1 :=
  upsert_maintains_single_main_agent gwA dbEmpty [5] rfl (by simp)

/-- C9: the upsert never modifies an existing agent's credential hash,
never overwrites a non-empty status, and when it reports `changed = false`
it returns the found record and store exactly as they were (so every field,
`updated_at` included, is untouched). -/
theorem upsert_frame_conditions (gw : Gateway) (db : AgentDB) (now : Nat)
    (i : Nat) (a0 : Agent) (hf : findMain? gw db.agents = some (i, a0)) :
    (upsert_main_agent_record gw db now).1.agent_token_hash = a0.agent_token_hash ∧
    (a0.status ≠ "" → (upsert_main_agent_record gw db now).1.status = a0.status) ∧
    ((upsert_main_agent_record gw db now).2.1 = false →
      (upsert_main_agent_record gw db now).1 = a0 ∧
      (upsert_main_agent_record gw db now).2.2 = db) := by
  rw [upsert_found gw db now i a0 hf]
  by_cases hc : (applyCorrections gw a0 false).2
  · simp only [hc, if_true]
    refine ⟨rfl, ?_, ?_⟩
    · intro h
      show (canonAgent gw a0).status = a0.status
      simp [canonAgent, h]
    · intro h
      cases h
  · have hc' : (applyCorrections gw a0 false).2 = false := by simpa using hc
    simp [hc']

/-- Witness for C9 at a concrete reconciled stored agent. -/
theorem upsert_frame_conditions_w :
    (upsert_main_agent_record gwA dbOne 9).1.agent_token_hash = agA.agent_token_hash ∧
    (upsert_main_agent_record gwA dbOne 9).1.status = agA.status ∧
    ((upsert_main_agent_record gwA dbOne 9).1 = agA ∧
      (upsert_main_agent_record gwA dbOne 9).2.2 = dbOne) := by
  obtain ⟨w1, w2, w3⟩ := upsert_frame_conditions gwA dbOne 9 0 agA rfl
  exact ⟨w1, w2 (by decide), w3 (by rfl)⟩

/-- C2: `provision_main_agent_record` always returns; under every
combination of remote outcomes (in particular when every remote call raises
the distinguished gateway error) the committed store holds the agent's row
with the fresh credential hash, `provision_requested_at` and
`provision_action`, and the effect trace opens with the commit — every
local state change and the commit precede the first remote call. -/
theorem provision_persists_before_remote (gw : Gateway) (agent : Agent)
    (db : AgentDB) (raw_token : String) (now : Nat) (action : String)
    (notify : Bool) (env : RemoteEnv) :
    ∃ r, provision_main_agent_record gw agent db raw_token now action notify env =
        .ok r ∧
      r.agent.agent_token_hash = some (hash_agent_token raw_token) ∧
      r.agent.provision_requested_at = some now ∧
      r.agent.provision_action = some action ∧
      r.db.agents.find? (fun x => x.id == agent.id) = some r.agent ∧
      ∃ evs, r.events = Event.commit :: evs ∧ Event.commit ∉ evs := by
  refine ⟨_, provision_eq gw agent db raw_token now action notify env,
    provAgent_token agent raw_token now action,
    provAgent_requested agent raw_token now action,
    provAgent_action agent raw_token now action, ?_, provEvents_shape gw env notify⟩
  rw [← provAgent_id agent raw_token now action]
  exact commitAgent_find db (provAgent agent raw_token now action)

/-- C3: a distinguished gateway error raised by any remote call inside
`provision_main_agent_record` never propagates (the method still returns the
agent), while the identical error class raised by the message send inside
`dispatch_start_prompt` propagates as the error-mapping translation for
`ONBOARDING_START_DISPATCH`; any send exception outside
{gateway error, timeout} is re-raised unchanged. -/
theorem provision_swallows_dispatch_propagates (gw : Gateway) (agent : Agent)
    (db : AgentDB) (raw_token : String) (now : Nat) (action : String)
    (notify : Bool) (env : RemoteEnv) (e : ExcKind)
    (h1 : e ≠ ExcKind.gatewayError) (h2 : e ≠ ExcKind.timeoutError) :
    (∃ r, provision_main_agent_record gw agent db raw_token now action notify env =
        .ok r ∧ r.agent.id = agent.id) ∧
    dispatch_start_prompt gw (some ExcKind.gatewayError) =
      .error (map_gateway_error_to_http_exception
        GatewayOperation.ONBOARDING_START_DISPATCH ExcKind.gatewayError) ∧
    dispatch_start_prompt gw (some e) = .error (.raw e) := by
  refine ⟨⟨_, provision_eq gw agent db raw_token now action notify env,
    provAgent_id agent raw_token now action⟩, rfl, ?_⟩
  cases e with
  | gatewayError => exact absurd rfl h1
  | timeoutError => exact absurd rfl h2
  | osError => rfl
  | runtimeError => rfl
  | valueError => rfl
  | otherError => rfl

/-- Witness for C3 with every remote call raising the gateway error and a
concrete non-gateway, non-timeout send exception. -/
theorem provision_swallows_dispatch_propagates_w :
    (∃ r, provision_main_agent_record gwA agA dbOne "tokC3" 4 "provision" true
        envAllGatewayErr = .ok r ∧ r.agent.id = agA.id) ∧
    dispatch_start_prompt gwA (some ExcKind.gatewayError) =
      .error (map_gateway_error_to_http_exception
        GatewayOperation.ONBOARDING_START_DISPATCH ExcKind.gatewayError) ∧
    dispatch_start_prompt gwA (some ExcKind.osError) =
      .error (.raw ExcKind.osError) :=
  provision_swallows_dispatch_propagates gwA agA dbOne "tokC3" 4 "provision" true
    envAllGatewayErr ExcKind.osError (by decide) (by decide)

/-- C4: the roster check returns false without any remote call when the
gateway has no URL; a gateway error from `agents.list` yields true
(fail-open) rather than false or an exception; on success the verdict is
true exactly when some returned entry carries the gateway's derived external
agent id. -/
theorem roster_check_contract (gw : Gateway) :
    (truthyOptStr gw.url = false → ∀ remote,
      gateway_has_main_agent_entry gw remote = .ok (false, false)) ∧
    (truthyOptStr gw.url = true →
      gateway_has_main_agent_entry gw (.error .gatewayError) = .ok (true, true)) ∧
    (truthyOptStr gw.url = true → ∀ payload,
      gateway_has_main_agent_entry gw (.ok payload) =
        .ok (decide (∃ item ∈ extract_agents_list payload,
          extract_agent_id_from_entry item =
            some (GatewayAgentIdentity.openclaw_agent_id gw)), true)) := by
  refine ⟨?_, ?_, ?_⟩
  · intro hu remote
    simp [gateway_has_main_agent_entry, hu]
  · intro hu
    simp [gateway_has_main_agent_entry, hu]
  · intro hu payload
    simp only [gateway_has_main_agent_entry, hu, Bool.not_true, Bool.false_eq_true,
      if_false]
    rw [any_extract_eq_decide]

/-- Witness for C4 on a URL-less gateway, a gateway-error roster call, and a
concrete successful payload. -/
theorem roster_check_contract_w :
    gateway_has_main_agent_entry gwNoUrl (.error .osError) = .ok (false, false) ∧
    gateway_has_main_agent_entry gwA (.error .gatewayError) = .ok (true, true) ∧
    gateway_has_main_agent_entry gwA (.ok (.pylist [])) =
      .ok (decide (∃ item ∈ extract_agents_list (.pylist []),
        extract_agent_id_from_entry item =
          some (GatewayAgentIdentity.openclaw_agent_id gwA)), true) :=
  ⟨(roster_check_contract gwNoUrl).1 rfl _,
   (roster_check_contract gwA).2.1 rfl,
   (roster_check_contract gwA).2.2 rfl (.pylist [])⟩

/-- C10: roster-payload parsing is total — `extract_agents_list` yields `[]`
for any payload that is neither a list nor a dict holding a list under
"agents"; `extract_agent_id_from_entry` yields `none` for any entry that is
neither a non-whitespace string nor a dict carrying a non-whitespace string
under "id"/"agentId"/"agent_id"; and the roster check never raises on a
successfully returned payload of any shape. -/
theorem roster_parsing_total :
    (∀ payload : PyVal, (∀ l, payload ≠ .pylist l) →
      (∀ entries l, payload = .pydict entries →
        dictGet entries "agents" ≠ some (.pylist l)) →
      extract_agents_list payload = []) ∧
    (∀ item : PyVal, (∀ s, item = .pystr s → s.trim = "") →
      (∀ entries, item = .pydict entries → ∀ k ∈ ["id", "agentId", "agent_id"],
        ∀ s, dictGet entries k = some (.pystr s) → s.trim = "") →
      extract_agent_id_from_entry item = none) ∧
    (∀ (gw : Gateway) (payload : PyVal),
      (gateway_has_main_agent_entry gw (.ok payload)).toOption.isSome = true) := by
  refine ⟨?_, ?_, ?_⟩
  · intro payload h1 h2
    cases payload with
    | pylist l => exact absurd rfl (h1 l)
    | pydict entries =>
      rcases hg : dictGet entries "agents" with _ | v
      · simp [extract_agents_list, hg]
      · cases v with
        | pylist l => exact absurd hg (h2 entries l rfl)
        | pynone => simp [extract_agents_list, hg, truthy]
        | pybool b => cases b <;> simp [extract_agents_list, hg, truthy]
        | pyint n => by_cases hn : n = 0 <;> simp [extract_agents_list, hg, truthy, hn]
        | pystr s => by_cases hs : s = "" <;> simp [extract_agents_list, hg, truthy, hs]
        | pydict d => cases d <;> simp [extract_agents_list, hg, truthy]
    | pynone => rfl
    | pybool b => rfl
    | pyint n => rfl
    | pystr s => rfl
  · intro item h1 h2
    cases item with
    | pystr s =>
      have hs := h1 s rfl
      simp [extract_agent_id_from_entry, hs]
    | pydict entries =>
      have hk : ∀ k ∈ ["id", "agentId", "agent_id"], idUnderKey entries k = none := by
        intro k hkm
        unfold idUnderKey
        rcases hg : dictGet entries k with _ | v
        · rfl
        · cases v with
          | pystr raw =>
            have := h2 entries rfl k hkm raw hg
            simp [this]
          | pynone => rfl
          | pybool b => rfl
          | pyint n => rfl
          | pylist l => rfl
          | pydict d => rfl
      show (idUnderKey entries "id").orElse (fun _ =>
        (idUnderKey entries "agentId").orElse (fun _ =>
          idUnderKey entries "agent_id")) = none
      rw [hk "id" (by simp), hk "agentId" (by simp), hk "agent_id" (by simp)]
      rfl
    | pynone => rfl
    | pybool b => rfl
    | pyint n => rfl
    | pylist l => rfl
  · intro gw payload
    unfold gateway_has_main_agent_entry
    by_cases hu : truthyOptStr gw.url
    · simp [hu, Except.toOption]
    · have hu' : truthyOptStr gw.url = false := by simpa using hu
      simp [hu', Except.toOption]

/-- Witness for C10 on concrete malformed values. -/
theorem roster_parsing_total_w :
    extract_agents_list (.pybool true) = [] ∧
    extract_agent_id_from_entry (.pyint 7) = none ∧
    (gateway_has_main_agent_entry gwA (.ok (.pybool true))).toOption.isSome = true :=
  ⟨roster_parsing_total.1 (.pybool true) (fun _ h => PyVal.noConfusion h)
     (fun _ _ h => PyVal.noConfusion h),
   roster_parsing_total.2.1 (.pyint 7) (fun _ h => PyVal.noConfusion h)
     (fun _ h => PyVal.noConfusion h),
   roster_parsing_total.2.2 gwA (.pybool true)⟩

/-- C6: after `clear_agent_foreign_keys`, every in-progress task assigned to
the agent is moved to "inbox" with no assignee and a cleared in-progress
timestamp; every other task assigned to the agent loses only its assignee
(status unchanged); activity events and approvals referencing the agent have
the reference nulled; and none of the four bulk updates commits on its own. -/
theorem clear_agent_foreign_keys_spec (agent_id now : Nat) (db : OrgDB) :
    (clear_agent_foreign_keys agent_id now db).1.tasks = db.tasks.map (fun t =>
      if t.assigned_agent_id = some agent_id ∧ t.status = "in_progress" then
        { t with assigned_agent_id := none, status := "inbox",
                 in_progress_at := none, updated_at := now }
      else if t.assigned_agent_id = some agent_id then
        { t with assigned_agent_id := none, updated_at := now }
      else t) ∧
    (clear_agent_foreign_keys agent_id now db).1.events = db.events.map (fun e =>
      if e.agent_id = some agent_id then { e with agent_id := none } else e) ∧
    (clear_agent_foreign_keys agent_id now db).1.approvals = db.approvals.map (fun a =>
      if a.agent_id = some agent_id then { a with agent_id := none } else a) ∧
    (clear_agent_foreign_keys agent_id now db).2 = [false, false, false, false] := by
  unfold clear_agent_foreign_keys update_where
  refine ⟨?_, ?_, ?_, rfl⟩
  · show (db.tasks.map _).map _ = _
    rw [List.map_map]
    apply List.map_congr_left
    intro t _
    by_cases hA : t.assigned_agent_id = some agent_id
    · by_cases hS : t.status = "in_progress"
      · simp [Function.comp, hA, hS]
      · simp [Function.comp, hA, hS]
    · simp [Function.comp, hA]
  · apply List.map_congr_left
    intro e _
    by_cases hA : e.agent_id = some agent_id <;> simp [hA]
  · apply List.map_congr_left
    intro a _
    by_cases hA : a.agent_id = some agent_id <;> simp [hA]

/-- A roster call that succeeds or raises only the gateway error cannot make
the roster check propagate an exception. -/
theorem roster_check_ok_of_benign (s : SweepStep) (hb : rosterBenign s = true) :
    ∃ pr, gateway_has_main_agent_entry s.gw s.roster = .ok pr := by
  unfold gateway_has_main_agent_entry
  by_cases hu : truthyOptStr s.gw.url
  · simp only [hu, Bool.not_true, Bool.false_eq_true, if_false]
    unfold rosterBenign at hb
    rcases hr : s.roster with e | p
    · rw [hr] at hb
      cases e with
      | gatewayError => exact ⟨_, rfl⟩
      | timeoutError => cases hb
      | osError => cases hb
      | runtimeError => cases hb
      | valueError => cases hb
      | otherError => cases hb
    · exact ⟨_, rfl⟩
  · have hu' : truthyOptStr s.gw.url = false := by simpa using hu
    refine ⟨(false, false), ?_⟩
    simp [hu']

/-- C5: in `ensure_gateway_agents_exist`, provisioning is invoked for a
gateway exactly when the reconciler changed the record, or the
post-reconciliation agent has no credential hash, or the roster check
reports the entry missing; whenever it is invoked it passes notify=false. -/
theorem sweep_provision_condition (steps : List SweepStep) (db dbF : AgentDB)
    (recs : List IterRecord)
    (h : ensure_gateway_agents_exist steps db = .ok (dbF, recs)) :
    ∀ r ∈ recs,
      (r.provisionNotify.isSome = true ↔
        (r.changed = true ∨ truthyOptStr r.agentAfter.agent_token_hash = false ∨
          r.hasEntry = false)) ∧
      (r.provisionNotify = none ∨ r.provisionNotify = some false) := by
  induction steps generalizing db dbF recs with
  | nil =>
    unfold ensure_gateway_agents_exist at h
    simp only [Except.ok.injEq, Prod.mk.injEq] at h
    obtain ⟨-, h2⟩ := h
    subst h2
    intro r hr
    cases hr
  | cons step rest ih =>
    unfold ensure_gateway_agents_exist at h
    rcases hu : upsert_main_agent_record step.gw db step.now with ⟨agent, changed, db1⟩
    rw [hu] at h
    rcases hg : gateway_has_main_agent_entry step.gw step.roster with e | ⟨hasE, called⟩
    · rw [hg] at h
      cases h
    · rw [hg] at h
      dsimp only at h
      cases hn : (changed || !truthyOptStr agent.agent_token_hash || !hasE) with
      | true =>
        rw [hn] at h
        simp only [if_true] at h
        rw [provision_eq] at h
        dsimp only at h
        rcases hrec : ensure_gateway_agents_exist rest
            (commitAgent db1 (provAgent agent step.raw_token step.now "provision"))
          with e2 | ⟨dbF', recs'⟩
        · rw [hrec] at h
          cases h
        · rw [hrec] at h
          simp only [Except.ok.injEq, Prod.mk.injEq] at h
          obtain ⟨-, h2⟩ := h
          subst h2
          intro r hr
          rcases List.mem_cons.1 hr with rfl | hr'
          · have hn' : changed = true ∨
                truthyOptStr agent.agent_token_hash = false ∨ hasE = false := by
              simpa [Bool.or_eq_true, Bool.not_eq_true', or_assoc] using hn
            exact ⟨⟨fun _ => hn', fun _ => rfl⟩, Or.inr rfl⟩
          · exact ih _ _ _ hrec r hr'
      | false =>
        rw [hn] at h
        simp only [Bool.false_eq_true, if_false] at h
        rcases hrec : ensure_gateway_agents_exist rest db1 with e2 | ⟨dbF', recs'⟩
        · rw [hrec] at h
          cases h
        · rw [hrec] at h
          simp only [Except.ok.injEq, Prod.mk.injEq] at h
          obtain ⟨-, h2⟩ := h
          subst h2
          intro r hr
          rcases List.mem_cons.1 hr with rfl | hr'
          · have hn' : changed = false ∧
                truthyOptStr agent.agent_token_hash = true ∧ hasE = true := by
              simpa [Bool.or_eq_false_iff, Bool.not_eq_false', and_assoc] using hn
            refine ⟨⟨fun hco => by simp at hco, fun hrhs => ?_⟩, Or.inl rfl⟩
            simp [hn'.1, hn'.2.1, hn'.2.2] at hrhs
          · exact ih _ _ _ hrec r hr'

/-- Witness for C5 on a concrete one-gateway sweep that does provision. -/
theorem sweep_provision_condition_w :
    (recW5.provisionNotify.isSome = true ↔
      (recW5.changed = true ∨ truthyOptStr recW5.agentAfter.agent_token_hash = false ∨
        recW5.hasEntry = false)) ∧
    (recW5.provisionNotify = none ∨ recW5.provisionNotify = some false) := by
  have h : ensure_gateway_agents_exist [stepW5] dbEmpty = .ok (dbW5, [recW5]) := by rfl
  exact sweep_provision_condition [stepW5] dbEmpty dbW5 [recW5] h recW5 (by simp)

/-- Counterexample to C8 as stated: a non-gateway exception raised by the
roster check of the first gateway propagates out of
`ensure_gateway_agents_exist` and aborts the sweep, so the second gateway is
never processed. -/
theorem sweep_roster_failure_aborts :
    ensure_gateway_agents_exist [stepBadRoster, stepW8] dbEmpty =
      .error ExcKind.osError := by
  rfl

/-- C8 (amended): failures during provisioning are always caught within the
iteration, and a distinguished gateway error during the roster check is
caught (fail-open); when each step's roster call succeeds or raises only the
gateway error, the sweep completes and processes every gateway in the list,
whatever the provisioning outcomes. -/
theorem sweep_isolates_caught_failures (steps : List SweepStep) (db : AgentDB)
    (hb : ∀ s ∈ steps, rosterBenign s = true) :
    (ensure_gateway_agents_exist steps db).toOption.map (fun p => p.2.length) =
      some steps.length := by
  revert hb
  induction steps generalizing db with
  | nil =>
    intro hb
    simp [ensure_gateway_agents_exist, Except.toOption]
  | cons step rest ih =>
    intro hb
    have hstep := hb step (by simp)
    have hrest : ∀ s ∈ rest, rosterBenign s = true := fun s hs => hb s (by simp [hs])
    unfold ensure_gateway_agents_exist
    rcases hu : upsert_main_agent_record step.gw db step.now with ⟨agent, changed, db1⟩
    obtain ⟨⟨hasE, called⟩, hg⟩ := roster_check_ok_of_benign step hstep
    rw [hg]
    dsimp only
    cases hn : (changed || !truthyOptStr agent.agent_token_hash || !hasE) with
    | true =>
      simp only [eq_self_iff_true, if_true]
      rw [provision_eq]
      dsimp only
      rcases hrec : ensure_gateway_agents_exist rest
          (commitAgent db1 (provAgent agent step.raw_token step.now "provision"))
        with e2 | ⟨dbF', recs'⟩
      · have hih := ih (commitAgent db1 (provAgent agent step.raw_token step.now "provision")) hrest
        rw [hrec] at hih
        simp [Except.toOption] at hih
      · have hih := ih (commitAgent db1 (provAgent agent step.raw_token step.now "provision")) hrest
        rw [hrec] at hih
        simp only [Except.toOption, Option.map_some', Option.some.injEq] at hih
        simp [Except.toOption, hih]
    | false =>
      simp only [Bool.false_eq_true, if_false]
      rcases hrec : ensure_gateway_agents_exist rest db1 with e2 | ⟨dbF', recs'⟩
      · have hih := ih db1 hrest
        rw [hrec] at hih
        simp [Except.toOption] at hih
      · have hih := ih db1 hrest
        rw [hrec] at hih
        simp only [Except.toOption, Option.map_some', Option.some.injEq] at hih
        simp [Except.toOption, hih]

/-- Witness for the amended C8 on a concrete benign sweep. -/
theorem sweep_isolates_caught_failures_w :
    (ensure_gateway_agents_exist [stepW8] dbEmpty).toOption.map
      (fun p => p.2.length) = some 1 :=
  sweep_isolates_caught_failures [stepW8] dbEmpty
    (by intro s hs; simp only [List.mem_singleton] at hs; subst hs; rfl)

end OpenClaw
